import Mathlib

/-
  Verification of `prereise/gather/griddata/transmission/geometry.py`.

  The module computes per-kilometer resistance, inductance and shunt capacitance
  of an overhead transmission line from its physical geometry.  Python floats are
  embedded as real numbers; fallible construction (`__post_init__` raising) is
  embedded as `Except PyError`.  Python raises `ZeroDivisionError` on float
  division by zero, so the divisions whose divisors are caller-controlled
  (`resistivity * 1000 / area` in `Conductor` and `resistance_per_km / n` in
  `ConductorBundle`) are modelled with an explicit zero test.  The divisions and
  logarithms inside `Tower` only feed the derived values that the claims equate
  with the very same expressions, so `Tower` is modelled with total real
  arithmetic (an over-approximation of the set of successful constructions that
  keeps every universally quantified claim sound).
-/

/-- Python exception kinds raised by the module: `ValueError` for configuration
errors (including unknown materials and unknown layouts), `NotImplementedError`
for unsupported conductor counts, `ZeroDivisionError` for float division by
zero. -/
inductive PyError where
  | valueError (msg : String)
  | notImplementedError (msg : String)
  | zeroDivisionError (msg : String)
deriving DecidableEq

/-- Modelled from the spec: `mu_0` is imported from the repository module
`prereise/gather/griddata/transmission/const.py`, which is not part of the
sources; the spec describes it as the vacuum permeability used in
`inductance = mu_0/(2*pi) * ln(...)`.  Its concrete value never matters for the
claims. -/
noncomputable def mu_0 : ℝ := 4 * Real.pi * 1e-7

/-- Modelled from the spec: `epsilon_0` is imported from the missing
`const.py`; the spec describes it as the vacuum permittivity used in
`capacitance = 2*pi*epsilon_0 / (...)`.  Its concrete value never matters for
the claims. -/
noncomputable def epsilon_0 : ℝ := 8.8541878128e-12

/-- A fully resolved `Conductor`, i.e. the state of the Python dataclass after
`__post_init__` returned normally: `resistance_per_km` and `gmr` are concrete
reals, `area`, `permeability` and `resistivity` are present only when they were
supplied or derived. -/
structure ResolvedConductor where
  radius : ℝ
  material : Option String
  resistance_per_km : ℝ
  gmr : ℝ
  area : Option ℝ
  permeability : Option ℝ
  resistivity : Option ℝ

/-- The cross-section area used to derive resistance: the supplied `area`, or
`pi * radius ** 2` when absent (source lines 51-52). -/
noncomputable def resolvedArea (radius : ℝ) (area : Option ℝ) : ℝ :=
  match area with
  | none => Real.pi * radius ^ 2
  | some a => a

/-- Source lines 34-41: resolve `gmr`, returning `(gmr, permeability)`.  The
lookup `relative_permeability[self.material]` is a dictionary access whose
`KeyError` is converted to `ValueError`; the dictionary lives in the missing
`const.py` and is abstracted as a function `String → Option ℝ`.  A `None`
material also misses the table, exactly as in Python. -/
noncomputable def resolveGmr (relative_permeability : String → Option ℝ)
    (radius : ℝ) (material : Option String) (gmr : Option ℝ) :
    Except PyError (ℝ × Option ℝ) :=
  match gmr with
  | some g => .ok (g, none)
  | none =>
    match material.bind relative_permeability with
    | none => .error (.valueError ("Unknown permeability, cannot calculate gmr"))
    | some p => .ok (radius * Real.exp (p / 4), some p)

open Classical in
/-- Source lines 43-54: resolve `resistance_per_km`, returning
`(resistance_per_km, area, resistivity)`.  `resistivity * 1000 / self.area`
raises `ZeroDivisionError` in Python when the (possibly defaulted) area is
zero. -/
noncomputable def resolveResistance (resistivity : String → Option ℝ)
    (radius : ℝ) (material : Option String) (resistance_per_km : Option ℝ)
    (area : Option ℝ) : Except PyError (ℝ × Option ℝ × Option ℝ) :=
  match resistance_per_km with
  | some r => .ok (r, area, none)
  | none =>
    match material.bind resistivity with
    | none => .error (.valueError ("Unknown resistivity, cannot calculate resistance"))
    | some rho =>
      if resolvedArea radius area = 0 then
        .error (.zeroDivisionError ("float division by zero"))
      else
        .ok (rho * 1000 / resolvedArea radius area, some (resolvedArea radius area), some rho)

/-- Source lines 20-54, `Conductor.__post_init__`: validate the inputs, then
resolve `gmr` and `resistance_per_km`.  `radius` is the required positional
float field of the dataclass, so the Python clause `self.radius is None` is
always false and is dropped. -/
noncomputable def Conductor.construct
    (relative_permeability resistivity : String → Option ℝ)
    (radius : ℝ) (material : Option String) (resistance_per_km : Option ℝ)
    (gmr : Option ℝ) (area : Option ℝ) : Except PyError ResolvedConductor :=
  if gmr.isNone ∧ material.isNone then
    .error (.valueError ("If gmr is not provided, material and radius are needed to estimate"))
  else if resistance_per_km.isNone ∧ material.isNone then
    .error (.valueError ("If resistance_per_km is not provided, material and radius are needed to estimate"))
  else
    match resolveGmr relative_permeability radius material gmr with
    | .error e => .error e
    | .ok (g, p) =>
      match resolveResistance resistivity radius material resistance_per_km area with
      | .error e => .error e
      | .ok (r, a, rho) => .ok ⟨radius, material, r, g, a, p, rho⟩

/-- Observation: the construction returned normally. -/
def isOk {α : Type} : Except PyError α → Prop
  | .ok _ => True
  | .error _ => False

/-- Observation: the construction raised a `ValueError` (the configuration
error of the spec). -/
def isValueError {α : Type} : Except PyError α → Prop
  | .error (.valueError _) => True
  | _ => False

/-- Observation: the `gmr` field of a successfully constructed conductor
(junk value 0 on failure). -/
noncomputable def gmrOf : Except PyError ResolvedConductor → ℝ
  | .ok c => c.gmr
  | .error _ => 0

/-- Observation: the `resistance_per_km` field of a successfully constructed
conductor (junk value 0 on failure). -/
noncomputable def resistanceOf : Except PyError ResolvedConductor → ℝ
  | .ok c => c.resistance_per_km
  | .error _ => 0

/-- Observation: the `area` field of a successfully constructed conductor. -/
noncomputable def areaOf : Except PyError ResolvedConductor → Option ℝ
  | .ok c => c.area
  | .error _ => none

/-- Modelled from the spec: a sample relative-permeability table for the
missing `const.py`; the repository test derives both `gmr` and
`resistance_per_km` for the material `aluminum`, so `aluminum` is in both
tables.  The numeric values are irrelevant to every claim. -/
noncomputable def samplePermeability : String → Option ℝ :=
  fun s => if s = "aluminum" then some 1 else none

/-- Modelled from the spec: a sample resistivity table for the missing
`const.py` (see `samplePermeability`). -/
noncomputable def sampleResistivity : String → Option ℝ :=
  fun s => if s = "aluminum" then some 1 else none

/-- A fully resolved `ConductorBundle`, i.e. the state of the Python dataclass
after `__post_init__` returned normally. -/
structure ResolvedBundle where
  n : ℤ
  spacing : ℝ
  conductor : ResolvedConductor
  layout : String
  resistance_per_km : ℝ
  spacing_L : ℝ
  spacing_C : ℝ

/-- Source lines 85-90, `ConductorBundle.calculate_equivalent_spacing_circular`.
Inside the `n == 3` branch the Python exponents `self.n - 1` and `1 / self.n`
are 2 and 1/3.  Python `2 ** (1 / 2)` is the real power `2 ^ (1/2)`. -/
noncomputable def ConductorBundle.calculate_equivalent_spacing_circular
    (n : ℤ) (spacing : ℝ) (conductor_distance : ℝ) : Except PyError ℝ :=
  if n = 3 then
    .ok ((conductor_distance * spacing ^ (2 : ℕ)) ^ ((1 : ℝ) / 3))
  else if n = 4 then
    .ok ((conductor_distance * spacing ^ (3 : ℕ) * (2 : ℝ) ^ ((1 : ℝ) / 2)) ^ ((1 : ℝ) / 4))
  else
    .error (.notImplementedError ("Geometry calculations not implemented for n > 4"))

/-- Source lines 92-97, `ConductorBundle.calculate_equivalent_spacing_flat`. -/
noncomputable def ConductorBundle.calculate_equivalent_spacing_flat
    (n : ℤ) (spacing : ℝ) (conductor_distance : ℝ) : Except PyError ℝ :=
  if n = 3 then
    .ok ((conductor_distance * 2 * spacing ^ (2 : ℕ)) ^ ((1 : ℝ) / 3))
  else if n = 4 then
    .ok ((conductor_distance * 12 * spacing ^ (3 : ℕ)) ^ ((1 : ℝ) / 8))
  else
    .error (.notImplementedError ("Geometry calculations not implemented for n > 4"))

/-- Source lines 76-83, the dispatch on `n` and `layout` shared by both `type`
branches of `calculate_equivalent_spacing`, applied to the already selected
`conductor_distance`. -/
noncomputable def ConductorBundle.equivalent_spacing_from_distance
    (n : ℤ) (spacing : ℝ) (layout : String) (conductor_distance : ℝ) :
    Except PyError ℝ :=
  if n = 2 then
    .ok ((conductor_distance * spacing) ^ ((1 : ℝ) / 2))
  else if layout = "circular" then
    ConductorBundle.calculate_equivalent_spacing_circular n spacing conductor_distance
  else if layout = "flat" then
    ConductorBundle.calculate_equivalent_spacing_flat n spacing conductor_distance
  else
    .error (.valueError ("Unknown layout: " ++ layout))

/-- Source lines 69-83, `ConductorBundle.calculate_equivalent_spacing`: select
`conductor_distance` from the `type` argument (`gmr` for inductance, `radius`
for capacitance), then dispatch on `n` and `layout`. -/
noncomputable def ConductorBundle.calculate_equivalent_spacing
    (conductor : ResolvedConductor) (n : ℤ) (spacing : ℝ) (layout : String)
    (type : String) : Except PyError ℝ :=
  if type = "inductance" then
    ConductorBundle.equivalent_spacing_from_distance n spacing layout conductor.gmr
  else if type = "capacitance" then
    ConductorBundle.equivalent_spacing_from_distance n spacing layout conductor.radius
  else
    .error (.valueError ("type must be either inductance or capacitance"))

/-- Source lines 64-67, `ConductorBundle.__post_init__`: Python first computes
`self.conductor.resistance_per_km / self.n` (raising `ZeroDivisionError` when
`n == 0`), then `spacing_L` and `spacing_C`. -/
noncomputable def ConductorBundle.construct (n : ℤ) (spacing : ℝ)
    (conductor : ResolvedConductor) (layout : String) :
    Except PyError ResolvedBundle :=
  if n = 0 then
    .error (.zeroDivisionError ("float division by zero"))
  else
    match ConductorBundle.calculate_equivalent_spacing conductor n spacing layout "inductance" with
    | .error e => .error e
    | .ok sL =>
      match ConductorBundle.calculate_equivalent_spacing conductor n spacing layout "capacitance" with
      | .error e => .error e
      | .ok sC =>
        .ok ⟨n, spacing, conductor, layout, conductor.resistance_per_km / (n : ℝ), sL, sC⟩

/-- Source lines 100-104, `PhaseLocations`: three `(x, height)` coordinates. -/
structure PhaseLocations where
  a : ℝ × ℝ
  b : ℝ × ℝ
  c : ℝ × ℝ

/-- A fully resolved `Tower`, i.e. the state of the Python dataclass after
`__post_init__` returned normally, with the entries of the `true_distance` and
`reflected_distance` dictionaries as separate fields. -/
structure ResolvedTower where
  locations : PhaseLocations
  bundle : ResolvedBundle
  circuits : ℤ
  freq : ℝ
  true_ab : ℝ
  true_ac : ℝ
  true_bc : ℝ
  reflected_ab : ℝ
  reflected_ac : ℝ
  reflected_bc : ℝ
  equivalent_distance : ℝ
  equivalent_reflected_distance : ℝ
  equivalent_height : ℝ
  resistance : ℝ
  inductance : ℝ
  capacitance : ℝ

/-- Source lines 121-158: the computations of `Tower.__post_init__` after the
`circuits` check, i.e. `calculate_distances`, the resistance pass-through,
`calculate_inductance_per_km` and `calculate_shunt_capacitance_per_km`. -/
noncomputable def Tower.calculate (locations : PhaseLocations)
    (bundle : ResolvedBundle) (circuits : ℤ) (freq : ℝ) : ResolvedTower :=
  let a := locations.a
  let b := locations.b
  let c := locations.c
  let true_ab := Real.sqrt ((a.1 - b.1) ^ 2 + (a.2 - b.2) ^ 2)
  let true_ac := Real.sqrt ((a.1 - c.1) ^ 2 + (a.2 - c.2) ^ 2)
  let true_bc := Real.sqrt ((b.1 - c.1) ^ 2 + (b.2 - c.2) ^ 2)
  let reflected_ab := Real.sqrt ((a.1 - b.1) ^ 2 + (a.2 + b.2) ^ 2)
  let reflected_ac := Real.sqrt ((a.1 - c.1) ^ 2 + (a.2 + c.2) ^ 2)
  let reflected_bc := Real.sqrt ((b.1 - c.1) ^ 2 + (b.2 + c.2) ^ 2)
  let equivalent_distance := (true_ab * true_ac * true_bc) ^ ((1 : ℝ) / 3)
  let equivalent_reflected_distance :=
    (reflected_ab * reflected_ac * reflected_bc) ^ ((1 : ℝ) / 3)
  let equivalent_height := (a.2 * b.2 * c.2) ^ ((1 : ℝ) / 3)
  let resistance := bundle.resistance_per_km
  let inductance :=
    mu_0 / (2 * Real.pi) * Real.log (equivalent_distance / bundle.spacing_L)
  let capacitance :=
    (2 * Real.pi * epsilon_0) /
      (Real.log (equivalent_distance / bundle.spacing_C) -
        Real.log (equivalent_reflected_distance / (2 * equivalent_height)))
  ⟨locations, bundle, circuits, freq, true_ab, true_ac, true_bc,
   reflected_ab, reflected_ac, reflected_bc, equivalent_distance,
   equivalent_reflected_distance, equivalent_height, resistance, inductance,
   capacitance⟩

/-- Source lines 118-127, `Tower.__post_init__`: reject `circuits != 1`, then
compute everything. -/
noncomputable def Tower.construct (locations : PhaseLocations)
    (bundle : ResolvedBundle) (circuits : ℤ) (freq : ℝ) :
    Except PyError ResolvedTower :=
  if circuits ≠ 1 then
    .error (.valueError ("Cannot calculate geometry for multi-circuit lines yet"))
  else
    .ok (Tower.calculate locations bundle circuits freq)

/-- A concrete resolved conductor used by witnesses, with the values of the
Cardinal ACSR conductor of the repository test suite. -/
noncomputable def sampleConductor : ResolvedConductor :=
  ⟨0.01519, some "ACSR", 0.0672, 0.012253, none, none, none⟩

/-- Concrete phase locations used by witnesses. -/
noncomputable def sampleLocations : PhaseLocations :=
  ⟨(0, 2), (3, 2), (6, 2)⟩

/-- A concrete resolved bundle used by witnesses. -/
noncomputable def sampleBundle : ResolvedBundle :=
  ⟨2, 1, sampleConductor, "circular", 1, 1, 1⟩

/-- A concrete resolved tower used by witnesses: the successful construction at
`circuits = 1`, `freq = 60`. -/
noncomputable def sampleTower : ResolvedTower :=
  Tower.calculate sampleLocations sampleBundle 1 60

/-- A concrete resolved tower used by witnesses, identical to `sampleTower`
except for `freq = 50`. -/
noncomputable def sampleTower50 : ResolvedTower :=
  Tower.calculate sampleLocations sampleBundle 1 50

/-- Claim C1: for every successfully constructed `Tower`, the derived
capacitance equals `2*pi*epsilon_0` divided by
`ln(equivalent_distance / bundle.spacing_C) -
 ln(equivalent_reflected_distance / (2 * equivalent_height))`, where the
reflected pairwise distances are Euclidean distances with the two heights
added (mirror across the ground plane), the equivalent reflected distance is
the cube root of the product of the three reflected distances, and the
equivalent height is the cube root of the product of the three phase
heights. -/
theorem tower_capacitance_formula (locations : PhaseLocations)
    (bundle : ResolvedBundle) (circuits : ℤ) (freq : ℝ) (t : ResolvedTower)
    (h : Tower.construct locations bundle circuits freq = .ok t) :
    t.capacitance = (2 * Real.pi * epsilon_0) /
      (Real.log
        ((Real.sqrt ((locations.a.1 - locations.b.1) ^ 2 + (locations.a.2 - locations.b.2) ^ 2) *
          Real.sqrt ((locations.a.1 - locations.c.1) ^ 2 + (locations.a.2 - locations.c.2) ^ 2) *
          Real.sqrt ((locations.b.1 - locations.c.1) ^ 2 + (locations.b.2 - locations.c.2) ^ 2)) ^ ((1 : ℝ) / 3) /
          bundle.spacing_C) -
       Real.log
        ((Real.sqrt ((locations.a.1 - locations.b.1) ^ 2 + (locations.a.2 + locations.b.2) ^ 2) *
          Real.sqrt ((locations.a.1 - locations.c.1) ^ 2 + (locations.a.2 + locations.c.2) ^ 2) *
          Real.sqrt ((locations.b.1 - locations.c.1) ^ 2 + (locations.b.2 + locations.c.2) ^ 2)) ^ ((1 : ℝ) / 3) /
          (2 * (locations.a.2 * locations.b.2 * locations.c.2) ^ ((1 : ℝ) / 3)))) := by
  unfold Tower.construct at h
  split at h
  · exact absurd h (by simp)
  · injection h with h
    subst h
    rfl

/-- Witness for C1 at the sample tower. -/
theorem tower_capacitance_formula_witness :
    Tower.construct sampleLocations sampleBundle 1 60 = .ok sampleTower ∧
    sampleTower.capacitance = (2 * Real.pi * epsilon_0) /
      (Real.log
        ((Real.sqrt ((sampleLocations.a.1 - sampleLocations.b.1) ^ 2 + (sampleLocations.a.2 - sampleLocations.b.2) ^ 2) *
          Real.sqrt ((sampleLocations.a.1 - sampleLocations.c.1) ^ 2 + (sampleLocations.a.2 - sampleLocations.c.2) ^ 2) *
          Real.sqrt ((sampleLocations.b.1 - sampleLocations.c.1) ^ 2 + (sampleLocations.b.2 - sampleLocations.c.2) ^ 2)) ^ ((1 : ℝ) / 3) /
          sampleBundle.spacing_C) -
       Real.log
        ((Real.sqrt ((sampleLocations.a.1 - sampleLocations.b.1) ^ 2 + (sampleLocations.a.2 + sampleLocations.b.2) ^ 2) *
          Real.sqrt ((sampleLocations.a.1 - sampleLocations.c.1) ^ 2 + (sampleLocations.a.2 + sampleLocations.c.2) ^ 2) *
          Real.sqrt ((sampleLocations.b.1 - sampleLocations.c.1) ^ 2 + (sampleLocations.b.2 + sampleLocations.c.2) ^ 2)) ^ ((1 : ℝ) / 3) /
          (2 * (sampleLocations.a.2 * sampleLocations.b.2 * sampleLocations.c.2) ^ ((1 : ℝ) / 3)))) :=
  ⟨rfl, tower_capacitance_formula sampleLocations sampleBundle 1 60 sampleTower rfl⟩

/-- Claim C2: for every successfully constructed `Tower`, the derived
inductance equals `mu_0/(2*pi) * ln(equivalent_distance / bundle.spacing_L)`
where the equivalent distance is the cube root of the product of the three
true pairwise Euclidean distances, and the derived resistance equals
`bundle.resistance_per_km` unchanged. -/
theorem tower_inductance_resistance_formula (locations : PhaseLocations)
    (bundle : ResolvedBundle) (circuits : ℤ) (freq : ℝ) (t : ResolvedTower)
    (h : Tower.construct locations bundle circuits freq = .ok t) :
    t.inductance = mu_0 / (2 * Real.pi) *
      Real.log
        ((Real.sqrt ((locations.a.1 - locations.b.1) ^ 2 + (locations.a.2 - locations.b.2) ^ 2) *
          Real.sqrt ((locations.a.1 - locations.c.1) ^ 2 + (locations.a.2 - locations.c.2) ^ 2) *
          Real.sqrt ((locations.b.1 - locations.c.1) ^ 2 + (locations.b.2 - locations.c.2) ^ 2)) ^ ((1 : ℝ) / 3) /
          bundle.spacing_L) ∧
    t.resistance = bundle.resistance_per_km := by
  unfold Tower.construct at h
  split at h
  · exact absurd h (by simp)
  · injection h with h
    subst h
    exact ⟨rfl, rfl⟩

/-- Witness for C2 at the sample tower. -/
theorem tower_inductance_resistance_formula_witness :
    Tower.construct sampleLocations sampleBundle 1 60 = .ok sampleTower ∧
    (sampleTower.inductance = mu_0 / (2 * Real.pi) *
      Real.log
        ((Real.sqrt ((sampleLocations.a.1 - sampleLocations.b.1) ^ 2 + (sampleLocations.a.2 - sampleLocations.b.2) ^ 2) *
          Real.sqrt ((sampleLocations.a.1 - sampleLocations.c.1) ^ 2 + (sampleLocations.a.2 - sampleLocations.c.2) ^ 2) *
          Real.sqrt ((sampleLocations.b.1 - sampleLocations.c.1) ^ 2 + (sampleLocations.b.2 - sampleLocations.c.2) ^ 2)) ^ ((1 : ℝ) / 3) /
          sampleBundle.spacing_L) ∧
     sampleTower.resistance = sampleBundle.resistance_per_km) :=
  ⟨rfl, tower_inductance_resistance_formula sampleLocations sampleBundle 1 60 sampleTower rfl⟩

/-- Claim C10: two `Tower` constructions identical in locations, bundle and
circuits but differing in `freq` produce identical resistance, inductance,
capacitance and intermediate distances: `freq` is stored but has no influence
on any derived quantity. -/
theorem tower_freq_independent (locations : PhaseLocations)
    (bundle : ResolvedBundle) (circuits : ℤ) (freq1 freq2 : ℝ)
    (t1 t2 : ResolvedTower)
    (h1 : Tower.construct locations bundle circuits freq1 = .ok t1)
    (h2 : Tower.construct locations bundle circuits freq2 = .ok t2) :
    t1.resistance = t2.resistance ∧ t1.inductance = t2.inductance ∧
    t1.capacitance = t2.capacitance ∧ t1.true_ab = t2.true_ab ∧
    t1.true_ac = t2.true_ac ∧ t1.true_bc = t2.true_bc ∧
    t1.reflected_ab = t2.reflected_ab ∧ t1.reflected_ac = t2.reflected_ac ∧
    t1.reflected_bc = t2.reflected_bc ∧
    t1.equivalent_distance = t2.equivalent_distance ∧
    t1.equivalent_reflected_distance = t2.equivalent_reflected_distance ∧
    t1.equivalent_height = t2.equivalent_height := by
  unfold Tower.construct at h1 h2
  split at h1
  · exact absurd h1 (by simp)
  · split at h2
    · exact absurd h2 (by simp)
    · injection h1 with h1
      injection h2 with h2
      subst h1
      subst h2
      exact ⟨rfl, rfl, rfl, rfl, rfl, rfl, rfl, rfl, rfl, rfl, rfl, rfl⟩

/-- Witness for C10 at the sample tower with frequencies 50 and 60. -/
theorem tower_freq_independent_witness :
    Tower.construct sampleLocations sampleBundle 1 50 = .ok sampleTower50 ∧
    Tower.construct sampleLocations sampleBundle 1 60 = .ok sampleTower ∧
    (sampleTower50.resistance = sampleTower.resistance ∧
     sampleTower50.inductance = sampleTower.inductance ∧
     sampleTower50.capacitance = sampleTower.capacitance ∧
     sampleTower50.true_ab = sampleTower.true_ab ∧
     sampleTower50.true_ac = sampleTower.true_ac ∧
     sampleTower50.true_bc = sampleTower.true_bc ∧
     sampleTower50.reflected_ab = sampleTower.reflected_ab ∧
     sampleTower50.reflected_ac = sampleTower.reflected_ac ∧
     sampleTower50.reflected_bc = sampleTower.reflected_bc ∧
     sampleTower50.equivalent_distance = sampleTower.equivalent_distance ∧
     sampleTower50.equivalent_reflected_distance = sampleTower.equivalent_reflected_distance ∧
     sampleTower50.equivalent_height = sampleTower.equivalent_height) :=
  ⟨rfl, rfl,
   tower_freq_independent sampleLocations sampleBundle 1 50 60 sampleTower50
     sampleTower rfl rfl⟩

/-- A concrete resolved bundle with `n = 2` and a layout string that is neither
`circular` nor `flat`, as produced by a successful construction. -/
noncomputable def sampleBundle2 : ResolvedBundle :=
  ⟨2, 1, sampleConductor, "weird", sampleConductor.resistance_per_km / ((2 : ℤ) : ℝ),
   (sampleConductor.gmr * 1) ^ ((1 : ℝ) / 2), (sampleConductor.radius * 1) ^ ((1 : ℝ) / 2)⟩

/-- Claim C5: for every `ConductorBundle` constructed with `n = 2` and any
layout string whatsoever, `spacing_L = sqrt(conductor.gmr * spacing)` and
`spacing_C = sqrt(conductor.radius * spacing)`; the layout has no influence on
either result. -/
theorem bundle_n2_spacing (conductor : ResolvedConductor) (spacing : ℝ)
    (layout : String) (b : ResolvedBundle)
    (h : ConductorBundle.construct 2 spacing conductor layout = .ok b) :
    b.spacing_L = Real.sqrt (conductor.gmr * spacing) ∧
    b.spacing_C = Real.sqrt (conductor.radius * spacing) := by
  unfold ConductorBundle.construct ConductorBundle.calculate_equivalent_spacing
    ConductorBundle.equivalent_spacing_from_distance at h
  rw [if_neg (by decide : ¬("capacitance" = "inductance"))] at h
  norm_num at h
  subst h
  constructor
  · rw [Real.sqrt_eq_rpow]
  · rw [Real.sqrt_eq_rpow]

/-- Witness for C5 with the unrecognized layout string `weird`. -/
theorem bundle_n2_spacing_witness :
    ConductorBundle.construct 2 1 sampleConductor "weird" = .ok sampleBundle2 ∧
    (sampleBundle2.spacing_L = Real.sqrt (sampleConductor.gmr * 1) ∧
     sampleBundle2.spacing_C = Real.sqrt (sampleConductor.radius * 1)) :=
  ⟨rfl, bundle_n2_spacing sampleConductor 1 "weird" sampleBundle2 rfl⟩

/-- Counterexample to claim C6 as stated: with `n = 5` and the layout string
`xyz`, construction fails with `ValueError("Unknown layout: xyz")`, not with a
not-implemented error; and with `n = 0` (also outside `{2,3,4}`) it fails with
`ZeroDivisionError` from `resistance_per_km / n`, again not a not-implemented
error. -/
theorem bundle_unsupported_n_counterexample :
    ConductorBundle.construct 5 1 sampleConductor "xyz" =
      .error (.valueError ("Unknown layout: xyz")) ∧
    ConductorBundle.construct 0 1 sampleConductor "circular" =
      .error (.zeroDivisionError ("float division by zero")) :=
  ⟨rfl, rfl⟩

/-- Claim C6 as amended: for every conductor count `n` outside `{2, 3, 4}`
with `n ≠ 0` and a layout that is `circular` or `flat`, construction fails
with the not-implemented error; an unrecognized layout fails with a
configuration error instead, and `n = 0` with a division error. -/
theorem bundle_unsupported_n_amended (n : ℤ) (spacing : ℝ)
    (conductor : ResolvedConductor) (layout : String)
    (h0 : n ≠ 0) (h2 : n ≠ 2) (h3 : n ≠ 3) (h4 : n ≠ 4)
    (hl : layout = "circular" ∨ layout = "flat") :
    ConductorBundle.construct n spacing conductor layout =
      .error (.notImplementedError ("Geometry calculations not implemented for n > 4")) := by
  unfold ConductorBundle.construct ConductorBundle.calculate_equivalent_spacing
    ConductorBundle.equivalent_spacing_from_distance
    ConductorBundle.calculate_equivalent_spacing_circular
    ConductorBundle.calculate_equivalent_spacing_flat
  rcases hl with hl | hl <;> subst hl <;> simp [h0, h2, h3, h4]

/-- Witness for the amended C6 at `n = 5`, layout `circular`. -/
theorem bundle_unsupported_n_amended_witness :
    ConductorBundle.construct 5 1 sampleConductor "circular" =
      .error (.notImplementedError ("Geometry calculations not implemented for n > 4")) :=
  bundle_unsupported_n_amended 5 1 sampleConductor "circular" (by decide)
    (by decide) (by decide) (by decide) (Or.inl rfl)

/-- Bases of nonnegative reals raised to the same positive real power are
equal only when the bases are equal. -/
lemma rpow_base_inj {a b z : ℝ} (ha : 0 ≤ a) (hb : 0 ≤ b) (hz : 0 < z)
    (h : a ^ z = b ^ z) : a = b := by
  rcases lt_trichotomy a b with hab | hab | hab
  · exact absurd h (ne_of_lt (Real.rpow_lt_rpow ha hab hz))
  · exact hab
  · exact absurd h (ne_of_gt (Real.rpow_lt_rpow hb hab hz))

/-- A fourth root is an eighth root of the square, for nonnegative reals. -/
lemma rpow_quarter_as_eighth {x : ℝ} (hx : 0 ≤ x) :
    x ^ ((1 : ℝ) / 4) = (x ^ 2) ^ ((1 : ℝ) / 8) := by
  rw [← Real.rpow_two, ← Real.rpow_mul hx]
  norm_num

/-- The `n = 4` circular and flat equivalent-spacing values agree exactly when
the product `conductor_distance * spacing ^ 3` equals 6. -/
lemma n4_layout_real (t : ℝ) (ht : 0 < t) :
    (t * (2 : ℝ) ^ ((1 : ℝ) / 2)) ^ ((1 : ℝ) / 4) = (12 * t) ^ ((1 : ℝ) / 8) ↔
      t = 6 := by
  have h2 : (2 : ℝ) ^ ((1 : ℝ) / 2) = Real.sqrt 2 := (Real.sqrt_eq_rpow 2).symm
  have hnn : (0 : ℝ) ≤ t * Real.sqrt 2 := by positivity
  have hsq : (t * Real.sqrt 2) ^ 2 = 2 * t ^ 2 := by
    rw [mul_pow, Real.sq_sqrt (by norm_num : (0 : ℝ) ≤ 2)]
    ring
  rw [h2, rpow_quarter_as_eighth hnn, hsq]
  constructor
  · intro h
    have hb := rpow_base_inj (by positivity) (by positivity) (by norm_num) h
    nlinarith [hb, ht]
  · intro h
    subst h
    norm_num

/-- Counterexample to claim C7 as stated: at `n = 4` with spacing 1 and
conductor distance 6 (both positive), the circular and flat equivalent-spacing
formulas give the same value, namely `72 ** (1/8)`. -/
theorem bundle_layouts_coincide_counterexample :
    ConductorBundle.calculate_equivalent_spacing_circular 4 1 6 =
      ConductorBundle.calculate_equivalent_spacing_flat 4 1 6 := by
  have h := (n4_layout_real 6 (by norm_num)).mpr rfl
  unfold ConductorBundle.calculate_equivalent_spacing_circular
    ConductorBundle.calculate_equivalent_spacing_flat
  norm_num at h ⊢
  exact h

/-- Claim C7 as amended: for identical positive spacing and conductor-distance
inputs, the circular and flat equivalent spacings always differ at `n = 3`;
at `n = 4` they differ if and only if
`conductor_distance * spacing ^ 3 ≠ 6` (they coincide exactly on that
hypersurface). -/
theorem bundle_layouts_distinct_amended (conductor_distance spacing : ℝ)
    (hd : 0 < conductor_distance) (hs : 0 < spacing) :
    (ConductorBundle.calculate_equivalent_spacing_circular 3 spacing conductor_distance ≠
      ConductorBundle.calculate_equivalent_spacing_flat 3 spacing conductor_distance) ∧
    (ConductorBundle.calculate_equivalent_spacing_circular 4 spacing conductor_distance =
      ConductorBundle.calculate_equivalent_spacing_flat 4 spacing conductor_distance ↔
      conductor_distance * spacing ^ 3 = 6) := by
  constructor
  · intro h
    unfold ConductorBundle.calculate_equivalent_spacing_circular
      ConductorBundle.calculate_equivalent_spacing_flat at h
    norm_num at h
    have hb := rpow_base_inj (by positivity) (by positivity) (by norm_num) h
    nlinarith [hb, mul_pos hd (pow_pos hs 2)]
  · unfold ConductorBundle.calculate_equivalent_spacing_circular
      ConductorBundle.calculate_equivalent_spacing_flat
    norm_num
    have hbase : conductor_distance * 12 * spacing ^ 3 =
        12 * (conductor_distance * spacing ^ 3) := by ring
    rw [hbase]
    exact n4_layout_real _ (by positivity)

/-- Witness for the amended C7 at spacing 1 and conductor distance 1. -/
theorem bundle_layouts_distinct_amended_witness :
    (ConductorBundle.calculate_equivalent_spacing_circular 3 1 1 ≠
      ConductorBundle.calculate_equivalent_spacing_flat 3 1 1) ∧
    (ConductorBundle.calculate_equivalent_spacing_circular 4 1 1 =
      ConductorBundle.calculate_equivalent_spacing_flat 4 1 1 ↔
      (1 : ℝ) * 1 ^ 3 = 6) :=
  bundle_layouts_distinct_amended 1 1 (by norm_num) (by norm_num)

/-- Decomposition of a successful `Conductor` construction into the success of
the two resolution steps. -/
lemma construct_ok_decomp (rp rv : String → Option ℝ) (radius : ℝ)
    (material : Option String) (r? g? a? : Option ℝ) (c : ResolvedConductor)
    (h : Conductor.construct rp rv radius material r? g? a? = .ok c) :
    c.radius = radius ∧ c.material = material ∧
    resolveGmr rp radius material g? = .ok (c.gmr, c.permeability) ∧
    resolveResistance rv radius material r? a? =
      .ok (c.resistance_per_km, c.area, c.resistivity) := by
  unfold Conductor.construct at h
  by_cases h1 : g?.isNone ∧ material.isNone
  · rw [if_pos h1] at h
    exact absurd h (by simp)
  · rw [if_neg h1] at h
    by_cases h2 : r?.isNone ∧ material.isNone
    · rw [if_pos h2] at h
      exact absurd h (by simp)
    · rw [if_neg h2] at h
      cases hG : resolveGmr rp radius material g? with
      | error e =>
        rw [hG] at h
        simp at h
      | ok gp =>
        obtain ⟨g, p⟩ := gp
        rw [hG] at h
        cases hR : resolveResistance rv radius material r? a? with
        | error e =>
          rw [hR] at h
          simp at h
        | ok rar =>
          obtain ⟨r, a, rho⟩ := rar
          rw [hR] at h
          simp only [Except.ok.injEq] at h
          subst h
          exact ⟨rfl, rfl, rfl, rfl⟩

/-- Characterization of a successful `gmr` resolution: the supplied value is
kept, or the value is derived from the permeability table. -/
lemma resolveGmr_ok (rp : String → Option ℝ) (radius : ℝ)
    (material : Option String) (g? : Option ℝ) (g : ℝ) (p : Option ℝ)
    (h : resolveGmr rp radius material g? = .ok (g, p)) :
    g? = some g ∨
      ∃ q, material.bind rp = some q ∧ g = radius * Real.exp (q / 4) := by
  rcases g? with _ | g0
  · unfold resolveGmr at h
    cases hb : material.bind rp with
    | none =>
      rw [hb] at h
      simp at h
    | some q =>
      rw [hb] at h
      simp only [Except.ok.injEq, Prod.mk.injEq] at h
      exact Or.inr ⟨q, rfl, h.1.symm⟩
  · unfold resolveGmr at h
    simp only [Except.ok.injEq, Prod.mk.injEq] at h
    exact Or.inl (by rw [h.1])

/-- Characterization of a successful resistance resolution: the supplied value
is kept, or the value is derived from the resistivity table and the resolved
area. -/
lemma resolveResistance_ok (rv : String → Option ℝ) (radius : ℝ)
    (material : Option String) (r? a? : Option ℝ) (r : ℝ) (a rho : Option ℝ)
    (h : resolveResistance rv radius material r? a? = .ok (r, a, rho)) :
    r? = some r ∨
      ∃ q, material.bind rv = some q ∧
        r = q * 1000 / resolvedArea radius a? := by
  rcases r? with _ | r0
  · unfold resolveResistance at h
    cases hb : material.bind rv with
    | none =>
      rw [hb] at h
      simp at h
    | some q =>
      rw [hb] at h
      by_cases hz : resolvedArea radius a? = 0
      · simp [hz] at h
      · simp [hz] at h
        exact Or.inr ⟨q, rfl, h.1.symm⟩
  · unfold resolveResistance at h
    simp only [Except.ok.injEq, Prod.mk.injEq] at h
    exact Or.inl (by rw [h.1])

/-- When `gmr` is absent and the permeability lookup misses, construction
raises a `ValueError`. -/
lemma construct_gmr_failure (rp rv : String → Option ℝ) (radius : ℝ)
    (material : Option String) (r? a? : Option ℝ)
    (hb : material.bind rp = none) :
    isValueError (Conductor.construct rp rv radius material r? none a?) := by
  rcases material with _ | m
  · simp [Conductor.construct, isValueError]
  · simp only [Option.some_bind] at hb
    simp [Conductor.construct, resolveGmr, hb, isValueError]

/-- When `resistance_per_km` is absent and the resistivity lookup misses,
construction raises a `ValueError`. -/
lemma construct_resistance_failure (rp rv : String → Option ℝ) (radius : ℝ)
    (material : Option String) (g? a? : Option ℝ)
    (hb : material.bind rv = none) :
    isValueError (Conductor.construct rp rv radius material none g? a?) := by
  rcases material with _ | m
  · rcases g? with _ | g
    · simp [Conductor.construct, isValueError]
    · simp [Conductor.construct, isValueError]
  · simp only [Option.some_bind] at hb
    rcases g? with _ | g
    · cases hp : rp m with
      | none => simp [Conductor.construct, resolveGmr, hp, isValueError]
      | some p =>
        simp [Conductor.construct, resolveGmr, resolveResistance, hp, hb,
          isValueError]
    · simp [Conductor.construct, resolveGmr, resolveResistance, hb,
        isValueError]

/-- Claim C9: a `Conductor` constructed with both `gmr` and
`resistance_per_km` explicitly supplied succeeds for any material (present,
absent or unknown), stores exactly the supplied values, leaves `area` as
supplied, and never consults the material lookup tables (the result is
independent of them). -/
theorem conductor_explicit_passthrough
    (relative_permeability resistivity perm2 res2 : String → Option ℝ)
    (radius : ℝ) (material : Option String) (r g : ℝ) (area : Option ℝ) :
    Conductor.construct relative_permeability resistivity radius material
        (some r) (some g) area = .ok ⟨radius, material, r, g, area, none, none⟩ ∧
    Conductor.construct relative_permeability resistivity radius material
        (some r) (some g) area =
      Conductor.construct perm2 res2 radius material (some r) (some g) area := by
  constructor
  · simp [Conductor.construct, resolveGmr, resolveResistance]
  · simp [Conductor.construct, resolveGmr, resolveResistance]

/-- Claim C8: whenever a `Conductor` construction succeeds, `gmr` and
`resistance_per_km` are concrete reals, each being the supplied value or the
one derived from material and radius; and construction fails with a
configuration error whenever neither `gmr` nor `(material, radius)` can
resolve GMR, and likewise for resistance. -/
theorem conductor_resolved_fields
    (relative_permeability resistivity : String → Option ℝ) (radius : ℝ)
    (material : Option String) (resistance_per_km gmr area : Option ℝ) :
    (∀ c, Conductor.construct relative_permeability resistivity radius material
        resistance_per_km gmr area = .ok c →
      (gmr = some c.gmr ∨
        ∃ p, material.bind relative_permeability = some p ∧
          c.gmr = radius * Real.exp (p / 4)) ∧
      (resistance_per_km = some c.resistance_per_km ∨
        ∃ q, material.bind resistivity = some q ∧
          c.resistance_per_km = q * 1000 / resolvedArea radius area)) ∧
    (gmr = none → material.bind relative_permeability = none →
      isValueError (Conductor.construct relative_permeability resistivity radius
        material resistance_per_km gmr area)) ∧
    (resistance_per_km = none → material.bind resistivity = none →
      isValueError (Conductor.construct relative_permeability resistivity radius
        material resistance_per_km gmr area)) := by
  refine ⟨?_, ?_, ?_⟩
  · intro c hc
    obtain ⟨-, -, hG, hR⟩ := construct_ok_decomp _ _ _ _ _ _ _ _ hc
    exact ⟨resolveGmr_ok _ _ _ _ _ _ hG, resolveResistance_ok _ _ _ _ _ _ _ _ hR⟩
  · intro hg hb
    subst hg
    exact construct_gmr_failure _ _ _ _ _ _ hb
  · intro hr hb
    subst hr
    exact construct_resistance_failure _ _ _ _ _ _ hb

/-- Counterexample to claim C3 as stated: with the material `aluminum` present
in the permeability table and no explicit `gmr`, construction nevertheless
fails (with `ZeroDivisionError`, not a success) because the derived-resistance
branch divides by the explicitly supplied zero area. -/
theorem conductor_gmr_success_counterexample :
    Option.bind (some "aluminum") samplePermeability = some 1 ∧
    Conductor.construct samplePermeability sampleResistivity 1 (some "aluminum")
        none none (some 0) =
      .error (.zeroDivisionError ("float division by zero")) := by
  constructor
  · simp [samplePermeability]
  · simp [Conductor.construct, resolveGmr, resolveResistance, samplePermeability,
      sampleResistivity, resolvedArea]

/-- Claim C3 as amended: for a `Conductor` constructed without an explicit
`gmr`, if the material is in the relative-permeability table and the
resistance side also resolves (an explicit `resistance_per_km`, or a material
in the resistivity table together with a nonzero resolved area), construction
succeeds with `gmr = radius * exp(permeability / 4)`; if the material is
absent from the relative-permeability table, construction fails with a
configuration error. -/
theorem conductor_gmr_resolution_amended
    (relative_permeability resistivity : String → Option ℝ) (radius : ℝ)
    (material : Option String) (resistance_per_km area : Option ℝ) :
    (∀ p, material.bind relative_permeability = some p →
      (resistance_per_km ≠ none ∨
        (material.bind resistivity ≠ none ∧ resolvedArea radius area ≠ 0)) →
      isOk (Conductor.construct relative_permeability resistivity radius
        material resistance_per_km none area) ∧
      gmrOf (Conductor.construct relative_permeability resistivity radius
        material resistance_per_km none area) = radius * Real.exp (p / 4)) ∧
    (material.bind relative_permeability = none →
      isValueError (Conductor.construct relative_permeability resistivity radius
        material resistance_per_km none area)) := by
  constructor
  · intro p hp hres
    rcases material with _ | m
    · simp at hp
    · simp only [Option.some_bind] at hp
      rcases resistance_per_km with _ | r
      · rcases hres with hres | ⟨hrv, hz⟩
        · exact absurd rfl hres
        · simp only [Option.some_bind] at hrv
          cases hq : resistivity m with
          | none => exact absurd hq hrv
          | some q =>
            simp [Conductor.construct, resolveGmr, resolveResistance, hp, hq,
              hz, isOk, gmrOf]
      · simp [Conductor.construct, resolveGmr, resolveResistance, hp, isOk,
          gmrOf]
  · intro hb
    exact construct_gmr_failure _ _ _ _ _ _ hb

/-- Witness for the amended C3: aluminum with an explicit resistance. -/
theorem conductor_gmr_resolution_amended_witness :
    isOk (Conductor.construct samplePermeability sampleResistivity 1
      (some "aluminum") (some 2) none none) ∧
    gmrOf (Conductor.construct samplePermeability sampleResistivity 1
      (some "aluminum") (some 2) none none) = 1 * Real.exp (1 / 4) :=
  (conductor_gmr_resolution_amended samplePermeability sampleResistivity 1
      (some "aluminum") (some 2) none).1 1 (by simp [samplePermeability])
    (Or.inl (by simp))

/-- Counterexample to claim C4 as stated: with the material `aluminum` present
in the resistivity table, no explicit `resistance_per_km`, an explicit `gmr`
and an explicit zero area, construction fails with `ZeroDivisionError`
instead of succeeding. -/
theorem conductor_resistance_success_counterexample :
    Option.bind (some "aluminum") sampleResistivity = some 1 ∧
    Conductor.construct samplePermeability sampleResistivity 1 (some "aluminum")
        none (some 1) (some 0) =
      .error (.zeroDivisionError ("float division by zero")) := by
  constructor
  · simp [sampleResistivity]
  · simp [Conductor.construct, resolveGmr, resolveResistance, sampleResistivity,
      resolvedArea]

/-- Claim C4 as amended: for a `Conductor` constructed without an explicit
`resistance_per_km`, if the material is in the resistivity table, the gmr side
resolves (an explicit `gmr` or a material in the permeability table), and the
resolved area (the supplied one, or the default `pi * radius ** 2`) is
nonzero, construction succeeds with that area and
`resistance_per_km = resistivity * 1000 / area`; if the material is absent
from the resistivity table, construction fails with a configuration error. -/
theorem conductor_resistance_resolution_amended
    (relative_permeability resistivity : String → Option ℝ) (radius : ℝ)
    (material : Option String) (gmr area : Option ℝ) :
    (∀ q, material.bind resistivity = some q →
      (gmr ≠ none ∨ material.bind relative_permeability ≠ none) →
      resolvedArea radius area ≠ 0 →
      isOk (Conductor.construct relative_permeability resistivity radius
        material none gmr area) ∧
      areaOf (Conductor.construct relative_permeability resistivity radius
        material none gmr area) = some (resolvedArea radius area) ∧
      resistanceOf (Conductor.construct relative_permeability resistivity radius
        material none gmr area) = q * 1000 / resolvedArea radius area) ∧
    (material.bind resistivity = none →
      isValueError (Conductor.construct relative_permeability resistivity radius
        material none gmr area)) := by
  constructor
  · intro q hq hg hz
    rcases material with _ | m
    · simp at hq
    · simp only [Option.some_bind] at hq
      rcases gmr with _ | g
      · rcases hg with hg | hg
        · exact absurd rfl hg
        · simp only [Option.some_bind] at hg
          cases hp : relative_permeability m with
          | none => exact absurd hp hg
          | some p =>
            simp [Conductor.construct, resolveGmr, resolveResistance, hp, hq,
              hz, isOk, areaOf, resistanceOf]
      · simp [Conductor.construct, resolveGmr, resolveResistance, hq, hz, isOk,
          areaOf, resistanceOf]
  · intro hb
    exact construct_resistance_failure _ _ _ _ _ _ hb

/-- Witness for the amended C4: aluminum with an explicit gmr and the default
area. -/
theorem conductor_resistance_resolution_amended_witness :
    isOk (Conductor.construct samplePermeability sampleResistivity 1
      (some "aluminum") none (some 2) none) ∧
    areaOf (Conductor.construct samplePermeability sampleResistivity 1
      (some "aluminum") none (some 2) none) = some (resolvedArea 1 none) ∧
    resistanceOf (Conductor.construct samplePermeability sampleResistivity 1
      (some "aluminum") none (some 2) none) = 1 * 1000 / resolvedArea 1 none :=
  (conductor_resistance_resolution_amended samplePermeability sampleResistivity
      1 (some "aluminum") (some 2) none).1 1 (by simp [sampleResistivity])
    (Or.inl (by simp)) (by simp [resolvedArea, Real.pi_ne_zero])

/-- Witness for C8: with the unknown material `steel` and no explicit values,
both failure branches raise configuration errors. -/
theorem conductor_resolved_fields_witness :
    isValueError (Conductor.construct samplePermeability sampleResistivity 1
      (some "steel") none none none) ∧
    isValueError (Conductor.construct samplePermeability sampleResistivity 1
      (some "steel") none (some 3) none) :=
  ⟨(conductor_resolved_fields samplePermeability sampleResistivity 1
      (some "steel") none none none).2.1 rfl (by simp [samplePermeability]),
   (conductor_resolved_fields samplePermeability sampleResistivity 1
      (some "steel") none (some 3) none).2.2 rfl (by simp [sampleResistivity])⟩
